import Mathlib

/-!
Verification of the zerousb device discovery and handle lifecycle layer
(`libusb.go`, `constants.go`) against its natural-language specification.

The Go source is shallowly embedded: the libusb descriptor tree is a pure
data type, native calls are modelled by their visible outcomes, and the
native reference-count side effects are tracked as an explicit ledger
(`Nat → Int`, one cell per index in the native device list).  Machine
bytes are `Nat`s; all bit operations are written exactly as in the source.
-/

namespace Zerousb

/-! ### Constants (from `constants.go` and the libusb headers used by `libusb.go`) -/

/-- `LIBUSB_CLASS_HID` (= `ClassHID` in `constants.go`). -/
def LIBUSB_CLASS_HID : Nat := 0x03

/-- `LIBUSB_TRANSFER_TYPE_BULK` (= `TransferTypeBulk` in `constants.go`). -/
def LIBUSB_TRANSFER_TYPE_BULK : Nat := 0x02

/-- `LIBUSB_TRANSFER_TYPE_INTERRUPT` (= `TransferTypeInterrupt` in `constants.go`). -/
def LIBUSB_TRANSFER_TYPE_INTERRUPT : Nat := 0x03

/-- `LIBUSB_ENDPOINT_IN`: bit 7 of the endpoint address. -/
def LIBUSB_ENDPOINT_IN : Nat := 0x80

/-- `transferTypeMask` from `constants.go` (bits 0-1 of `bmAttributes`). -/
def transferTypeMask : Nat := 0x03

/-- `endpointDirectionMask` from `constants.go` (bit 7 of the address). -/
def endpointDirectionMask : Nat := 0x80

/-! ### Descriptor tree (inputs the native layer hands to `getAllDevices`) -/

/-- One `struct_libusb_endpoint_descriptor`: the two byte fields the code reads. -/
structure EndpointDesc where
  bEndpointAddress : Nat
  bmAttributes : Nat
deriving Repr, DecidableEq

/-- One `struct_libusb_interface_descriptor` (an alt-setting). -/
structure AltSetting where
  bAlternateSetting : Nat
  bInterfaceClass : Nat
  bInterfaceSubClass : Nat
  bInterfaceProtocol : Nat
  /-- `endpoint[0..bNumEndpoints)`. -/
  endpoints : List EndpointDesc
deriving Repr, DecidableEq

/-- One `struct_libusb_interface`: `altsetting[0..num_altsetting)`. -/
structure Iface where
  altsettings : List AltSetting
deriving Repr, DecidableEq

/-- One `struct_libusb_config_descriptor`: `interface[0..bNumInterfaces)`. -/
structure ConfigDesc where
  interfaces : List Iface
deriving Repr, DecidableEq

/-- `struct_libusb_device_descriptor` fields read by the code. -/
structure DeviceDesc where
  idVendor : Nat
  idProduct : Nat
  bDeviceClass : Nat
  bDeviceSubClass : Nat
  bDeviceProtocol : Nat
deriving Repr, DecidableEq

/-- A native `libusb_device` as visible to this layer: its descriptor, its
configuration descriptors (`bNumConfigurations = configs.length`), and the
physical port number returned by `libusb_get_port_number`. -/
structure Device where
  desc : DeviceDesc
  configs : List ConfigDesc
  port : Nat
deriving Repr, DecidableEq

/-! ### Errors

Modelled from the spec: the Go error-conversion helper (`fromLibusbErrno`,
`ErrNotSupported`, `ErrNotFound`, `libusbError`) lives in a repository file
that is not under `src/`; only the identities the code under `src/`
distinguishes (not-supported, not-found, everything else) are modelled, plus
`code n` for `libusbError(count)` wrapping a raw negative return. -/
inductive UsbError where
  | notSupported
  | notFound
  | accessDenied
  | io
  | code (n : Int)
deriving Repr, DecidableEq

/-! ### DeviceInfo -/

/-- One hex digit character, lower case, as produced by Go's `%x`. -/
def hexChar (n : Nat) : Char :=
  if n < 10 then Char.ofNat (48 + n) else Char.ofNat (87 + n)

/-- Go `fmt.Sprintf("%04x", n)` for a `uint16` value (`n < 0x10000`). -/
def hex4 (n : Nat) : String :=
  String.mk [hexChar (n / 4096 % 16), hexChar (n / 256 % 16),
             hexChar (n / 16 % 16), hexChar (n % 16)]

/-- Go `fmt.Sprintf("%02d", n)` for a `uint8` value. -/
def dec2 (n : Nat) : String :=
  if n < 10 then "0" ++ toString n else toString n

/-- The `DeviceInfo` record built at `libusb.go:141-160`.  The native device
pointer `libusbDevice` is modelled by the device's index in the native device
list; the pointer fields `libusbPort`, `libusbReader`, `libusbWriter`,
`readerTransferType`, `writerTransferType` are always allocated and set when a
record is emitted, so they are modelled by their pointees. -/
structure DeviceInfo where
  Path : String
  VendorID : Nat
  ProductID : Nat
  Class : Nat
  SubClass : Nat
  Protocol : Nat
  Interface : Nat
  libusbDevice : Nat
  libusbPort : Nat
  libusbReader : Nat
  libusbWriter : Nat
  readerTransferType : Nat
  writerTransferType : Nat
  InterfaceAlternate : Nat
  InterfaceClass : Nat
  InterfaceSubClass : Nat
  InterfaceProtocol : Nat
deriving Repr, DecidableEq

/-! ### Endpoint scan (`libusb.go:118-134`) -/

/-- The four loop-local variables of the endpoint scan:
`var reader, writer *uint8` and
`var readerTransferType, writerTransferType uint8` (zero initialised). -/
structure ScanState where
  reader : Option Nat
  readerTransferType : Nat
  writer : Option Nat
  writerTransferType : Nat
deriving Repr, DecidableEq

/-- Initial scan state (Go zero values). -/
def initScan : ScanState := ⟨none, 0, none, 0⟩

/-- One iteration of the endpoint loop, `libusb.go:120-134`.  Note the source
compares the whole `bmAttributes` byte against the transfer-type constants
(it does not mask with `transferTypeMask`), and tests direction with
`bEndpointAddress & LIBUSB_ENDPOINT_IN == LIBUSB_ENDPOINT_IN`. -/
def scanStep (s : ScanState) (e : EndpointDesc) : ScanState :=
  if e.bmAttributes != LIBUSB_TRANSFER_TYPE_INTERRUPT &&
      e.bmAttributes != LIBUSB_TRANSFER_TYPE_BULK then
    s
  else if e.bEndpointAddress &&& LIBUSB_ENDPOINT_IN == LIBUSB_ENDPOINT_IN then
    { s with reader := some e.bEndpointAddress, readerTransferType := e.bmAttributes }
  else
    { s with writer := some e.bEndpointAddress, writerTransferType := e.bmAttributes }

/-- Scan a whole alt-setting's endpoint array. -/
def scanEndpoints (es : List EndpointDesc) : ScanState :=
  es.foldl scanStep initScan

/-- Whether an endpoint passes the transfer-type guard at `libusb.go:122`
(the source compares the whole attributes byte, not the masked bits). -/
def endpointUsable (e : EndpointDesc) : Bool :=
  e.bmAttributes == LIBUSB_TRANSFER_TYPE_BULK ||
    e.bmAttributes == LIBUSB_TRANSFER_TYPE_INTERRUPT

/-- Whether the direction test at `libusb.go:125` classifies an endpoint as
IN. -/
def endpointIsIn (e : EndpointDesc) : Bool :=
  e.bEndpointAddress &&& LIBUSB_ENDPOINT_IN == LIBUSB_ENDPOINT_IN

/-- The record constructed at `libusb.go:141-160`.  `vendorID` is the filter
argument (the `Path` format string interpolates it, not `desc.idVendor`). -/
def mkInfo (vendorID : Nat) (desc : DeviceDesc) (devnum port ifacenum : Nat)
    (alt : AltSetting) (s : ScanState) : DeviceInfo :=
  { Path := hex4 vendorID ++ ":" ++ hex4 desc.idProduct ++ ":" ++ dec2 port
    VendorID := desc.idVendor
    ProductID := desc.idProduct
    Class := desc.bDeviceClass
    SubClass := desc.bDeviceSubClass
    Protocol := desc.bDeviceProtocol
    Interface := ifacenum
    libusbDevice := devnum
    libusbPort := port
    libusbReader := s.reader.getD 0
    libusbWriter := s.writer.getD 0
    readerTransferType := s.readerTransferType
    writerTransferType := s.writerTransferType
    InterfaceAlternate := alt.bAlternateSetting
    InterfaceClass := alt.bInterfaceClass
    InterfaceSubClass := alt.bInterfaceSubClass
    InterfaceProtocol := alt.bInterfaceProtocol }

/-- Records emitted for one alt-setting, `libusb.go:106-162`: skip HID
interfaces; emit exactly when both `reader` and `writer` were set. -/
def altInfos (vendorID : Nat) (desc : DeviceDesc) (devnum port ifacenum : Nat)
    (alt : AltSetting) : List DeviceInfo :=
  if alt.bInterfaceClass == LIBUSB_CLASS_HID then []
  else
    let s := scanEndpoints alt.endpoints
    if s.reader.isSome && s.writer.isSome then
      [mkInfo vendorID desc devnum port ifacenum alt s]
    else []

/-- Records for one interface, `libusb.go:96-105`: interfaces with
`num_altsetting == 0` are skipped; otherwise every alt-setting is scanned. -/
def ifaceInfos (vendorID : Nat) (desc : DeviceDesc) (devnum port ifacenum : Nat)
    (ifc : Iface) : List DeviceInfo :=
  if ifc.altsettings.length == 0 then []
  else ifc.altsettings.flatMap (altInfos vendorID desc devnum port ifacenum)

/-- A Go `for i, x := range xs` loop whose body contributes `f i x`,
carrying the running index. -/
def walkIdx {α β : Type} (f : Nat → α → List β) : Nat → List α → List β
  | _, [] => []
  | k, a :: rest => f k a ++ walkIdx f (k + 1) rest

/-- The `for ifacenum, iface := range ifaces` loop: `ifacenum` counts from 0
within each configuration. -/
def walkIfaces (vendorID : Nat) (desc : DeviceDesc) (devnum port : Nat) :
    Nat → List Iface → List DeviceInfo :=
  walkIdx (ifaceInfos vendorID desc devnum port)

/-- Records for one device, `libusb.go:69-166`: vendor/product filter
(`libusb.go:75`), HID device-class skip (`libusb.go:79`), then every
configuration descriptor is walked. -/
def deviceInfos (vendorID productID : Nat) (devnum : Nat) (dev : Device) :
    List DeviceInfo :=
  if (vendorID > 0 && dev.desc.idVendor != vendorID) ||
      (productID > 0 && dev.desc.idProduct != productID) then []
  else if dev.desc.bDeviceClass == LIBUSB_CLASS_HID then []
  else dev.configs.flatMap fun cfg =>
    walkIfaces vendorID dev.desc devnum dev.port 0 cfg.interfaces

/-- The `for devnum, dev := range devices` loop. -/
def walkDevices (vendorID productID : Nat) : Nat → List Device → List DeviceInfo :=
  walkIdx (deviceInfos vendorID productID)

/-! ### Native reference ledger

`Nat → Int` maps each index of the native device list to the number of
references this layer holds on that device.  `libusb_ref_device` and
`libusb_unref_device` are pointwise increments and decrements. -/

/-- Number of occurrences of `j` in a list of device indices. -/
def countOcc (j : Nat) : List Nat → Nat
  | [] => 0
  | i :: is => (if i = j then 1 else 0) + countOcc j is

/-- `libusb_ref_device` on the device at index `i`. -/
def refDevice (f : Nat → Int) (i : Nat) : Nat → Int :=
  fun j => if j = i then f j + 1 else f j

/-- `libusb_unref_device` on the device at index `i`. -/
def unrefDevice (f : Nat → Int) (i : Nat) : Nat → Int :=
  fun j => if j = i then f j - 1 else f j

/-- `getAllDevices` (`libusb.go:42-173`).

The native listing outcome is the `listing` argument: `.error n` models
`libusb_get_device_list` returning a negative count `n`, `.ok devs` a
successful listing.  The returned ledger holds the references outstanding
per device index when the call returns.

Reference accounting, exactly as the source performs it:
* a successful `libusb_get_device_list` grants one reference per listed
  device;
* `libusb_ref_device(dev)` at `libusb.go:138` adds one per emitted record;
* the loop at `libusb.go:168-170` removes one per emitted record;
* the `defer C.libusb_free_device_list(deviceList, 1)` at `libusb.go:53`
  releases nothing: Go evaluates deferred call arguments at the `defer`
  statement, which runs before `libusb_get_device_list` assigns
  `deviceList`, so the deferred call receives the still-nil pointer and
  `libusb_free_device_list(NULL, 1)` is a no-op.  The device list is never
  freed.

The context init (`libusb.go:45-49`) and the per-device descriptor fetches
are modelled as succeeding; no claim concerns their failure paths. -/
def getAllDevices (vendorID productID : Nat) (listing : Except Int (List Device)) :
    List DeviceInfo × Option UsbError × (Nat → Int) :=
  match listing with
  | .error n => ([], some (UsbError.code n), fun _ => 0)
  | .ok devs =>
      let infos := walkDevices vendorID productID 0 devs
      let refs0 : Nat → Int := fun j => if j < devs.length then 1 else 0
      let refs1 := (infos.map (·.libusbDevice)).foldl refDevice refs0
      let refs2 := (infos.map (·.libusbDevice)).foldl unrefDevice refs1
      (infos, none, refs2)

/-! ### Handle lifecycle (`libusb.go:176-298`) -/

/-- The `libusbDevice` Go struct (`libusb.go:31-38`): the embedded
`DeviceInfo`, whether the native handle pointer is non-nil, and the two
timeouts (Go zero value 0 = no timeout).  The mutex is not modelled; every
claim concerns a single caller. -/
structure libusbDevice where
  info : DeviceInfo
  handleOpen : Bool
  writeTimeout : Nat
  readTimeout : Nat
deriving Repr, DecidableEq

/-- `SetAutoDetach` (`libusb.go:282-288`): a native outcome other than
not-supported is returned, not-supported and success yield nil.  `val` is
the flag forwarded to the native call; it does not affect the result. -/
def SetAutoDetach (val : Nat) (nativeErr : Option UsbError) : Option UsbError :=
  match val, nativeErr with
  | _, some e => if e != UsbError.notSupported then some e else none
  | _, none => none

/-- `DetachKernelDriver` (`libusb.go:290-298`): native outcomes
not-supported and not-found are treated as success; any other native error
is returned. -/
def DetachKernelDriver (nativeErr : Option UsbError) : Option UsbError :=
  match nativeErr with
  | some e =>
      if e != UsbError.notSupported && e != UsbError.notFound then some e else none
  | none => none

/-- The distinct error returns of `open` (`libusb.go:176-223`), one
constructor per `fmt.Errorf` site / propagated error. -/
inductive OpenError where
  /-- the error propagated from `getAllDevices` (`libusb.go:178-183`) -/
  | discovery (e : UsbError)
  /-- `"failed to open device: not found"` (`libusb.go:196`) -/
  | notFound
  /-- `"failed to open device: %v"` (`libusb.go:203`) -/
  | openFailed (e : UsbError)
  /-- `"failed to claim interface: %v"` (`libusb.go:216`) -/
  | claimFailed (e : UsbError)
deriving Repr, DecidableEq

/-- Outcomes of the native calls `open` performs after selecting a device:
`libusb_open`, `libusb_set_auto_detach_kernel_driver`,
`libusb_detach_kernel_driver`, `libusb_claim_interface`
(`none` = native success). -/
structure OpenNative where
  openErr : Option UsbError
  autoDetachErr : Option UsbError
  detachErr : Option UsbError
  claimErr : Option UsbError
deriving Repr, DecidableEq

/-- The candidate test at `libusb.go:188`:
`*match.libusbPort == *info.libusbPort && match.Interface == info.Interface`. -/
def matchesPortIface (info m : DeviceInfo) : Bool :=
  m.libusbPort == info.libusbPort && m.Interface == info.Interface

/-- The selection loop of `open` (`libusb.go:185-193`): `device` starts nil;
the first candidate passing the test while `device` is still nil is kept,
every other candidate is passed to `libusb_unref_device`.  Returns the
selected candidate and the unreferenced candidates in scan order. -/
def selectLoop (p : DeviceInfo → Bool) :
    Option DeviceInfo → List DeviceInfo → Option DeviceInfo × List DeviceInfo
  | device, [] => (device, [])
  | device, m :: ms =>
      if device.isNone && p m then
        selectLoop p (some m) ms
      else
        let r := selectLoop p device ms
        (r.1, m :: r.2)

/-- `open` (`libusb.go:176-223`).

Returns the call's outcome together with the list of candidates handed to
`libusb_unref_device` during the call (`libusb.go:179-181` on a discovery
error, `libusb.go:191` during the selection scan).

The results of `SetAutoDetach(1)` (`libusb.go:211`) and
`DetachKernelDriver()` (`libusb.go:212`) are discarded by the source — the
two calls appear as bare statements — so neither native outcome influences
the result.  On a claim failure the just-opened native handle is closed
(`libusb.go:215`) before the error is returned. -/
def openDevice (info : DeviceInfo) (listing : Except Int (List Device))
    (nat : OpenNative) : Except OpenError libusbDevice × List DeviceInfo :=
  let res := getAllDevices info.VendorID info.ProductID listing
  match res.2.1 with
  | some e => (.error (.discovery e), res.1)
  | none =>
      let sel := selectLoop (matchesPortIface info) none res.1
      match sel.1 with
      | none => (.error .notFound, sel.2)
      | some m =>
          let info := { info with libusbDevice := m.libusbDevice }
          match nat.openErr with
          | some e => (.error (.openFailed e), sel.2)
          | none =>
              let _ := SetAutoDetach 1 nat.autoDetachErr
              let _ := DetachKernelDriver nat.detachErr
              match nat.claimErr with
              | some e => (.error (.claimFailed e), sel.2)
              | none => (.ok ⟨info, true, 0, 0⟩, sel.2)

/-- Whether an `open` outcome is a success. -/
def isOkResult {ε α : Type} : Except ε α → Bool
  | .ok _ => true
  | .error _ => false

/-- The native calls `Close` can issue, in order. -/
inductive NativeOp where
  | releaseInterface (ifacenum : Nat)
  | closeHandle
  | unrefDevice (devnum : Nat)
deriving Repr, DecidableEq

/-- `Close` (`libusb.go:226-238`): under the handle lock, if the native
handle pointer is non-nil the interface is released, the handle closed and
the pointer cleared; `libusb_unref_device` is then called unconditionally —
it sits outside the `if dev.handle != nil` block.  The Go function always
returns a nil error.  Returns the new state and the native calls issued. -/
def Close (dev : libusbDevice) : libusbDevice × List NativeOp :=
  if dev.handleOpen then
    ({ dev with handleOpen := false },
     [NativeOp.releaseInterface dev.info.Interface, NativeOp.closeHandle,
      NativeOp.unrefDevice dev.info.libusbDevice])
  else
    (dev, [NativeOp.unrefDevice dev.info.libusbDevice])

/-! ### Transfer dispatch (`libusb.go:249-330`) -/

/-- What a transfer function does before/at the native boundary.
`panicOnEmpty` is the Go runtime panic raised by `&b[0]` when `b` has
length zero (index out of range), which aborts the call before any native
transfer is attempted. -/
inductive TransferAction where
  | panicOnEmpty
  | interruptTransfer (endpoint : Nat) (data : List Nat) (timeout : Nat)
  | bulkTransfer (endpoint : Nat) (data : List Nat) (timeout : Nat)
  | unsupported (transferType : Nat)
deriving Repr, DecidableEq

/-- `readInterrupt` (`libusb.go:300-306`): takes `&b[0]` — a panic on an
empty buffer — then calls `libusb_interrupt_transfer` on `*dev.libusbReader`. -/
def readInterrupt (dev : libusbDevice) (b : List Nat) (timeout : Nat) :
    TransferAction :=
  match b with
  | [] => .panicOnEmpty
  | _ :: _ => .interruptTransfer dev.info.libusbReader b timeout

/-- `readBulk` (`libusb.go:308-314`). -/
def readBulk (dev : libusbDevice) (b : List Nat) (timeout : Nat) :
    TransferAction :=
  match b with
  | [] => .panicOnEmpty
  | _ :: _ => .bulkTransfer dev.info.libusbReader b timeout

/-- `writeBulk` (`libusb.go:316-322`). -/
def writeBulk (dev : libusbDevice) (b : List Nat) (timeout : Nat) :
    TransferAction :=
  match b with
  | [] => .panicOnEmpty
  | _ :: _ => .bulkTransfer dev.info.libusbWriter b timeout

/-- `writeInterrupt` (`libusb.go:324-330`). -/
def writeInterrupt (dev : libusbDevice) (b : List Nat) (timeout : Nat) :
    TransferAction :=
  match b with
  | [] => .panicOnEmpty
  | _ :: _ => .interruptTransfer dev.info.libusbWriter b timeout

/-- `Read` (`libusb.go:266-280`): dispatch on `*dev.readerTransferType`
with no inspection of `b` in this layer. -/
def Read (dev : libusbDevice) (b : List Nat) : TransferAction :=
  if dev.info.readerTransferType == LIBUSB_TRANSFER_TYPE_INTERRUPT then
    readInterrupt dev b dev.readTimeout
  else if dev.info.readerTransferType == LIBUSB_TRANSFER_TYPE_BULK then
    readBulk dev b dev.readTimeout
  else
    .unsupported dev.info.readerTransferType

/-- `Write` (`libusb.go:249-263`): dispatch on `*dev.writerTransferType`
with no inspection of `b` in this layer. -/
def Write (dev : libusbDevice) (b : List Nat) : TransferAction :=
  if dev.info.writerTransferType == LIBUSB_TRANSFER_TYPE_INTERRUPT then
    writeInterrupt dev b dev.writeTimeout
  else if dev.info.writerTransferType == LIBUSB_TRANSFER_TYPE_BULK then
    writeBulk dev b dev.writeTimeout
  else
    .unsupported dev.info.writerTransferType

/-! ### Helper lemmas: the endpoint scan -/

theorem scanStep_reader (s : ScanState) (e : EndpointDesc) :
    (scanStep s e).reader =
      if endpointUsable e && endpointIsIn e then some e.bEndpointAddress
      else s.reader := by
  unfold scanStep endpointUsable endpointIsIn
  by_cases h2 : e.bmAttributes = LIBUSB_TRANSFER_TYPE_BULK <;>
    by_cases h3 : e.bmAttributes = LIBUSB_TRANSFER_TYPE_INTERRUPT <;>
    by_cases hin : e.bEndpointAddress &&& LIBUSB_ENDPOINT_IN = LIBUSB_ENDPOINT_IN <;>
    simp [h2, h3, hin]

theorem scanStep_readerTT (s : ScanState) (e : EndpointDesc) :
    (scanStep s e).readerTransferType =
      if endpointUsable e && endpointIsIn e then e.bmAttributes
      else s.readerTransferType := by
  unfold scanStep endpointUsable endpointIsIn
  by_cases h2 : e.bmAttributes = LIBUSB_TRANSFER_TYPE_BULK <;>
    by_cases h3 : e.bmAttributes = LIBUSB_TRANSFER_TYPE_INTERRUPT <;>
    by_cases hin : e.bEndpointAddress &&& LIBUSB_ENDPOINT_IN = LIBUSB_ENDPOINT_IN <;>
    simp [h2, h3, hin]

theorem scanStep_writer (s : ScanState) (e : EndpointDesc) :
    (scanStep s e).writer =
      if endpointUsable e && !endpointIsIn e then some e.bEndpointAddress
      else s.writer := by
  unfold scanStep endpointUsable endpointIsIn
  by_cases h2 : e.bmAttributes = LIBUSB_TRANSFER_TYPE_BULK <;>
    by_cases h3 : e.bmAttributes = LIBUSB_TRANSFER_TYPE_INTERRUPT <;>
    by_cases hin : e.bEndpointAddress &&& LIBUSB_ENDPOINT_IN = LIBUSB_ENDPOINT_IN <;>
    simp [h2, h3, hin]

theorem scanStep_writerTT (s : ScanState) (e : EndpointDesc) :
    (scanStep s e).writerTransferType =
      if endpointUsable e && !endpointIsIn e then e.bmAttributes
      else s.writerTransferType := by
  unfold scanStep endpointUsable endpointIsIn
  by_cases h2 : e.bmAttributes = LIBUSB_TRANSFER_TYPE_BULK <;>
    by_cases h3 : e.bmAttributes = LIBUSB_TRANSFER_TYPE_INTERRUPT <;>
    by_cases hin : e.bEndpointAddress &&& LIBUSB_ENDPOINT_IN = LIBUSB_ENDPOINT_IN <;>
    simp [h2, h3, hin]

/-- The fold keeps, in `reader`, the address of the last usable IN endpoint
scanned (the initial value survives only if none occurs). -/
theorem foldl_scanStep_reader (es : List EndpointDesc) (s : ScanState) :
    (es.foldl scanStep s).reader =
      (es.reverse.find? fun e => endpointUsable e && endpointIsIn e).elim
        s.reader (fun e => some e.bEndpointAddress) := by
  induction es generalizing s with
  | nil => rfl
  | cons e rest ih =>
      rw [List.foldl_cons, ih, List.reverse_cons, List.find?_append]
      rcases hf : rest.reverse.find? fun e => endpointUsable e && endpointIsIn e with
        _ | x
      · rcases hp : endpointUsable e && endpointIsIn e with _ | _ <;>
          simp [hf, hp, List.find?, scanStep_reader]
      · simp [hf]

theorem foldl_scanStep_readerTT (es : List EndpointDesc) (s : ScanState) :
    (es.foldl scanStep s).readerTransferType =
      (es.reverse.find? fun e => endpointUsable e && endpointIsIn e).elim
        s.readerTransferType (fun e => e.bmAttributes) := by
  induction es generalizing s with
  | nil => rfl
  | cons e rest ih =>
      rw [List.foldl_cons, ih, List.reverse_cons, List.find?_append]
      rcases hf : rest.reverse.find? fun e => endpointUsable e && endpointIsIn e with
        _ | x
      · rcases hp : endpointUsable e && endpointIsIn e with _ | _ <;>
          simp [hf, hp, List.find?, scanStep_readerTT]
      · simp [hf]

theorem foldl_scanStep_writer (es : List EndpointDesc) (s : ScanState) :
    (es.foldl scanStep s).writer =
      (es.reverse.find? fun e => endpointUsable e && !endpointIsIn e).elim
        s.writer (fun e => some e.bEndpointAddress) := by
  induction es generalizing s with
  | nil => rfl
  | cons e rest ih =>
      rw [List.foldl_cons, ih, List.reverse_cons, List.find?_append]
      rcases hf : rest.reverse.find? fun e => endpointUsable e && !endpointIsIn e with
        _ | x
      · rcases hp : endpointUsable e && !endpointIsIn e with _ | _ <;>
          simp [hf, hp, List.find?, scanStep_writer]
      · simp [hf]

theorem foldl_scanStep_writerTT (es : List EndpointDesc) (s : ScanState) :
    (es.foldl scanStep s).writerTransferType =
      (es.reverse.find? fun e => endpointUsable e && !endpointIsIn e).elim
        s.writerTransferType (fun e => e.bmAttributes) := by
  induction es generalizing s with
  | nil => rfl
  | cons e rest ih =>
      rw [List.foldl_cons, ih, List.reverse_cons, List.find?_append]
      rcases hf : rest.reverse.find? fun e => endpointUsable e && !endpointIsIn e with
        _ | x
      · rcases hp : endpointUsable e && !endpointIsIn e with _ | _ <;>
          simp [hf, hp, List.find?, scanStep_writerTT]
      · simp [hf]

/-- `reader` is set after the scan iff some usable IN endpoint occurs. -/
theorem scanEndpoints_reader_isSome (es : List EndpointDesc) :
    (scanEndpoints es).reader.isSome =
      es.any fun e => endpointUsable e && endpointIsIn e := by
  rw [scanEndpoints, foldl_scanStep_reader]
  rcases hf : es.reverse.find? (fun e => endpointUsable e && endpointIsIn e) with _ | x
  · rw [List.find?_eq_none] at hf
    have hany : (es.any fun e => endpointUsable e && endpointIsIn e) = false := by
      simp only [List.any_eq_false]
      intro e he
      exact hf e (List.mem_reverse.mpr he)
    simp [initScan, hany]
  · have hx : (endpointUsable x && endpointIsIn x) = true := by
      have := List.find?_some hf
      simpa using this
    have hmem : x ∈ es := List.mem_reverse.mp (List.mem_of_find?_eq_some hf)
    have hany : (es.any fun e => endpointUsable e && endpointIsIn e) = true :=
      List.any_eq_true.mpr ⟨x, hmem, hx⟩
    simp [hany]

/-- `writer` is set after the scan iff some usable OUT endpoint occurs. -/
theorem scanEndpoints_writer_isSome (es : List EndpointDesc) :
    (scanEndpoints es).writer.isSome =
      es.any fun e => endpointUsable e && !endpointIsIn e := by
  rw [scanEndpoints, foldl_scanStep_writer]
  rcases hf : es.reverse.find? (fun e => endpointUsable e && !endpointIsIn e) with _ | x
  · rw [List.find?_eq_none] at hf
    have hany : (es.any fun e => endpointUsable e && !endpointIsIn e) = false := by
      simp only [List.any_eq_false]
      intro e he
      exact hf e (List.mem_reverse.mpr he)
    simp [initScan, hany]
  · have hx : (endpointUsable x && !endpointIsIn x) = true := by
      have := List.find?_some hf
      simpa using this
    have hmem : x ∈ es := List.mem_reverse.mp (List.mem_of_find?_eq_some hf)
    have hany : (es.any fun e => endpointUsable e && !endpointIsIn e) = true :=
      List.any_eq_true.mpr ⟨x, hmem, hx⟩
    simp [hany]

/-- When `reader` is set, `readerTransferType` is the bulk or interrupt
constant. -/
theorem scanEndpoints_readerTT_usable (es : List EndpointDesc)
    (h : (scanEndpoints es).reader.isSome = true) :
    (scanEndpoints es).readerTransferType = LIBUSB_TRANSFER_TYPE_BULK ∨
      (scanEndpoints es).readerTransferType = LIBUSB_TRANSFER_TYPE_INTERRUPT := by
  rw [scanEndpoints, foldl_scanStep_readerTT]
  rw [scanEndpoints, foldl_scanStep_reader] at h
  rcases hf : es.reverse.find? (fun e => endpointUsable e && endpointIsIn e) with _ | x
  · rw [hf] at h
    simp [initScan] at h
  · have hx := List.find?_some hf
    simp only [endpointUsable, Bool.and_eq_true, Bool.or_eq_true, beq_iff_eq] at hx
    simpa [hf] using hx.1

/-- When `writer` is set, `writerTransferType` is the bulk or interrupt
constant. -/
theorem scanEndpoints_writerTT_usable (es : List EndpointDesc)
    (h : (scanEndpoints es).writer.isSome = true) :
    (scanEndpoints es).writerTransferType = LIBUSB_TRANSFER_TYPE_BULK ∨
      (scanEndpoints es).writerTransferType = LIBUSB_TRANSFER_TYPE_INTERRUPT := by
  rw [scanEndpoints, foldl_scanStep_writerTT]
  rw [scanEndpoints, foldl_scanStep_writer] at h
  rcases hf : es.reverse.find? (fun e => endpointUsable e && !endpointIsIn e) with _ | x
  · rw [hf] at h
    simp [initScan] at h
  · have hx := List.find?_some hf
    simp only [endpointUsable, Bool.and_eq_true, Bool.or_eq_true, beq_iff_eq] at hx
    simpa [hf] using hx.1

/-! ### Helper lemmas: the reference ledger -/

theorem foldl_refDevice_apply (is : List Nat) (f : Nat → Int) (j : Nat) :
    (is.foldl refDevice f) j = f j + (countOcc j is : Int) := by
  induction is generalizing f with
  | nil => simp [countOcc]
  | cons i is ih =>
      rw [List.foldl_cons, ih]
      by_cases h : i = j
      · subst h
        simp [refDevice, countOcc]
        ring
      · simp only [refDevice, countOcc, if_neg h, if_neg (Ne.symm h)]
        push_cast
        ring

theorem foldl_unrefDevice_apply (is : List Nat) (f : Nat → Int) (j : Nat) :
    (is.foldl unrefDevice f) j = f j - (countOcc j is : Int) := by
  induction is generalizing f with
  | nil => simp [countOcc]
  | cons i is ih =>
      rw [List.foldl_cons, ih]
      by_cases h : i = j
      · subst h
        simp [unrefDevice, countOcc]
        ring
      · simp only [unrefDevice, countOcc, if_neg h, if_neg (Ne.symm h)]
        push_cast
        ring

/-- After a successful enumeration the ledger holds exactly one reference
per *listed* device: the per-record retain/release pairs cancel and the
listing grant is never revoked. -/
theorem getAllDevices_refs (vendorID productID : Nat) (devs : List Device)
    (j : Nat) :
    (getAllDevices vendorID productID (.ok devs)).2.2 j =
      if j < devs.length then 1 else 0 := by
  show ((((walkDevices vendorID productID 0 devs).map
      (·.libusbDevice)).foldl unrefDevice
      (((walkDevices vendorID productID 0 devs).map (·.libusbDevice)).foldl
        refDevice (fun j => if j < devs.length then 1 else 0))) j) =
      if j < devs.length then 1 else 0
  rw [foldl_unrefDevice_apply, foldl_refDevice_apply]
  ring

/-! ### Helper lemmas: the `open` selection loop -/

theorem selectLoop_some (p : DeviceInfo → Bool) (d : DeviceInfo)
    (ms : List DeviceInfo) : selectLoop p (some d) ms = (some d, ms) := by
  induction ms with
  | nil => rfl
  | cons m ms ih => simp [selectLoop, ih]

/-- The loop selects the first candidate passing the test and hands every
other candidate, in scan order, to `libusb_unref_device`. -/
theorem selectLoop_none (p : DeviceInfo → Bool) (ms : List DeviceInfo) :
    selectLoop p none ms = (ms.find? p, ms.eraseP p) := by
  induction ms with
  | nil => rfl
  | cons m ms ih =>
      by_cases h : p m
      · simp [selectLoop, h, selectLoop_some, List.find?_cons, List.eraseP_cons]
      · simp [selectLoop, h, ih, List.find?_cons, List.eraseP_cons]

/-! ### Helper lemmas: membership in the discovery output -/

theorem mem_walkIdx {α : Type} (f : Nat → α → List DeviceInfo) (k : Nat)
    (xs : List α) (b : DeviceInfo) :
    b ∈ walkIdx f k xs ↔ ∃ n a, xs[n]? = some a ∧ b ∈ f (k + n) a := by
  induction xs generalizing k with
  | nil => simp [walkIdx]
  | cons x rest ih =>
      simp only [walkIdx, List.mem_append, ih]
      constructor
      · rintro (h | ⟨n, a, ha, hb⟩)
        · exact ⟨0, x, by simp, by simpa using h⟩
        · refine ⟨n + 1, a, by simpa using ha, ?_⟩
          have : k + 1 + n = k + (n + 1) := by omega
          rwa [this] at hb
      · rintro ⟨n, a, ha, hb⟩
        rcases n with _ | n
        · left
          simp only [List.getElem?_cons, if_pos rfl] at ha
          cases ha
          simpa using hb
        · right
          refine ⟨n, a, by simpa using ha, ?_⟩
          have : k + 1 + n = k + (n + 1) := by omega
          rwa [this]

theorem mem_altInfos (vendorID : Nat) (desc : DeviceDesc)
    (devnum port ifacenum : Nat) (alt : AltSetting) (info : DeviceInfo) :
    info ∈ altInfos vendorID desc devnum port ifacenum alt ↔
      alt.bInterfaceClass ≠ LIBUSB_CLASS_HID ∧
      (alt.endpoints.any fun e => endpointUsable e && endpointIsIn e) = true ∧
      (alt.endpoints.any fun e => endpointUsable e && !endpointIsIn e) = true ∧
      info = mkInfo vendorID desc devnum port ifacenum alt
        (scanEndpoints alt.endpoints) := by
  unfold altInfos
  rw [← scanEndpoints_reader_isSome, ← scanEndpoints_writer_isSome]
  by_cases hcls : alt.bInterfaceClass = LIBUSB_CLASS_HID
  · simp [hcls]
  · rcases hr : (scanEndpoints alt.endpoints).reader.isSome with _ | _ <;>
      rcases hw : (scanEndpoints alt.endpoints).writer.isSome with _ | _ <;>
      simp [hr, hw, hcls]

theorem mem_ifaceInfos (vendorID : Nat) (desc : DeviceDesc)
    (devnum port ifacenum : Nat) (ifc : Iface) (info : DeviceInfo) :
    info ∈ ifaceInfos vendorID desc devnum port ifacenum ifc ↔
      ∃ alt ∈ ifc.altsettings,
        info ∈ altInfos vendorID desc devnum port ifacenum alt := by
  unfold ifaceInfos
  rcases h : ifc.altsettings with _ | ⟨a, rest⟩
  · simp
  · simp [List.mem_flatMap]

theorem mem_deviceInfos (vendorID productID : Nat) (devnum : Nat) (dev : Device)
    (info : DeviceInfo) :
    info ∈ deviceInfos vendorID productID devnum dev ↔
      ((vendorID > 0 && dev.desc.idVendor != vendorID) ||
        (productID > 0 && dev.desc.idProduct != productID)) = false ∧
      dev.desc.bDeviceClass ≠ LIBUSB_CLASS_HID ∧
      ∃ cfg ∈ dev.configs, ∃ n ifc, cfg.interfaces[n]? = some ifc ∧
        info ∈ ifaceInfos vendorID dev.desc devnum dev.port n ifc := by
  unfold deviceInfos walkIfaces
  rcases hfil : (vendorID > 0 && dev.desc.idVendor != vendorID) ||
      (productID > 0 && dev.desc.idProduct != productID) with _ | _
  · by_cases hcls : dev.desc.bDeviceClass = LIBUSB_CLASS_HID
    · simp [hcls]
    · simp only [Bool.false_eq_true, if_false, beq_iff_eq, if_neg hcls,
        List.mem_flatMap, mem_walkIdx, Nat.zero_add, true_and,
        ne_eq, hcls, not_false_eq_true]
  · simp

/-- Membership in the full enumeration result. -/
theorem mem_getAllDevices (vendorID productID : Nat) (devs : List Device)
    (info : DeviceInfo) :
    info ∈ (getAllDevices vendorID productID (Except.ok devs)).1 ↔
      ∃ devnum dev, devs[devnum]? = some dev ∧
        info ∈ deviceInfos vendorID productID devnum dev := by
  show info ∈ walkDevices vendorID productID 0 devs ↔ _
  rw [walkDevices, mem_walkIdx]
  simp [Nat.zero_add]

/-! ### Claim theorems -/

/-- C1.  The claim ("after enumerate returns N records, exactly N native
references remain outstanding, one per emitted record and none for rejected
candidates; the full native device list is released after the result set is
built") fails on the code: the deferred `libusb_free_device_list` call
captured the still-nil list pointer, so the list is never released and one
reference remains outstanding per *listed* device.  First conjunct: the
ledger after any successful enumeration is exactly 1 on every listed device
index (rejected candidates included) and 0 elsewhere.  Second conjunct:
for a device list holding a single HID device, enumerate returns zero
records yet one native reference remains outstanding. -/
theorem C1_reference_balance :
    (∀ vendorID productID devs j,
        (getAllDevices vendorID productID (Except.ok devs)).2.2 j =
          if j < devs.length then (1 : Int) else 0) ∧
    (getAllDevices 0 0 (Except.ok
        [⟨⟨0x1234, 0x5678, LIBUSB_CLASS_HID, 0, 0⟩, [], 1⟩])).1 = [] ∧
    (getAllDevices 0 0 (Except.ok
        [⟨⟨0x1234, 0x5678, LIBUSB_CLASS_HID, 0, 0⟩, [], 1⟩])).2.2 0 = 1 :=
  ⟨getAllDevices_refs, rfl, rfl⟩

/-- C2.  The claim ("a second close on the same handle performs no
operation, produces no error, and causes no double release") fails on the
code: `libusb_unref_device` sits outside the `if dev.handle != nil` guard,
so the second `Close` still decrements the device reference.  For every
handle state, the second of two consecutive closes issues exactly one
native call: a device unreference. -/
theorem C2_close_second_call_unrefs (dev : libusbDevice) :
    (Close (Close dev).1).2 =
      [NativeOp.unrefDevice dev.info.libusbDevice] := by
  by_cases h : dev.handleOpen = true <;> simp [Close, h]

/-- C5.  When the native device-listing call returns a negative count `n`,
`getAllDevices` surfaces it as a discovery error (`libusbError(count)`) and
returns the device list produced so far — necessarily empty at that point —
alongside the error, with no native references outstanding. -/
theorem C5_negative_count_surfaced (vendorID productID : Nat) (n : Int) :
    getAllDevices vendorID productID (Except.error n) =
      ([], some (UsbError.code n), fun _ => 0) := rfl

/-- C3 counterexample.  A device tree whose only alt-setting has an
interrupt IN endpoint (address 0x81, attributes 0x03) and a bulk OUT
endpoint (address 0x01, attributes 0x02): the claim says no record is
emitted (no OUT endpoint of the same transfer kind exists, and emitted
records always have equal kinds), but the code emits one record whose IN
kind is interrupt and whose OUT kind is bulk. -/
theorem C3_counterexample :
    ((getAllDevices 0 0 (Except.ok
        [⟨⟨0x1234, 0x5678, 0, 0, 0⟩,
          [⟨[⟨[⟨0, 0xff, 0, 0, [⟨0x81, 0x03⟩, ⟨0x01, 0x02⟩]⟩]⟩]⟩], 7⟩])).1.map
      fun i => (i.readerTransferType, i.writerTransferType)) =
      [(LIBUSB_TRANSFER_TYPE_INTERRUPT, LIBUSB_TRANSFER_TYPE_BULK)] := by
  decide

/-- C3 amended.  With no vendor/product filter, `enumerate` emits a record
for an alt-setting iff the device class is not HID, the alt-setting's
interface class is not HID, and the alt-setting has at least one endpoint
whose whole attributes byte is the bulk or interrupt constant in each
direction — the IN and OUT transfer kinds are recorded independently and
need not be equal.  Every emitted record's IN and OUT kinds are each bulk
or interrupt (second conjunct). -/
theorem C3_matching_amended (devs : List Device) (info : DeviceInfo) :
    (info ∈ (getAllDevices 0 0 (Except.ok devs)).1 ↔
      ∃ devnum dev cfg n ifc alt,
        devs[devnum]? = some dev ∧
        dev.desc.bDeviceClass ≠ LIBUSB_CLASS_HID ∧
        cfg ∈ dev.configs ∧
        cfg.interfaces[n]? = some ifc ∧
        alt ∈ ifc.altsettings ∧
        alt.bInterfaceClass ≠ LIBUSB_CLASS_HID ∧
        (∃ e ∈ alt.endpoints,
          (e.bmAttributes = LIBUSB_TRANSFER_TYPE_BULK ∨
            e.bmAttributes = LIBUSB_TRANSFER_TYPE_INTERRUPT) ∧
          e.bEndpointAddress &&& LIBUSB_ENDPOINT_IN = LIBUSB_ENDPOINT_IN) ∧
        (∃ e ∈ alt.endpoints,
          (e.bmAttributes = LIBUSB_TRANSFER_TYPE_BULK ∨
            e.bmAttributes = LIBUSB_TRANSFER_TYPE_INTERRUPT) ∧
          e.bEndpointAddress &&& LIBUSB_ENDPOINT_IN ≠ LIBUSB_ENDPOINT_IN) ∧
        info = mkInfo 0 dev.desc devnum dev.port n alt
          (scanEndpoints alt.endpoints)) ∧
    (info ∈ (getAllDevices 0 0 (Except.ok devs)).1 →
      (info.readerTransferType = LIBUSB_TRANSFER_TYPE_BULK ∨
        info.readerTransferType = LIBUSB_TRANSFER_TYPE_INTERRUPT) ∧
      (info.writerTransferType = LIBUSB_TRANSFER_TYPE_BULK ∨
        info.writerTransferType = LIBUSB_TRANSFER_TYPE_INTERRUPT)) := by
  have key : info ∈ (getAllDevices 0 0 (Except.ok devs)).1 ↔
      ∃ devnum dev cfg n ifc alt,
        devs[devnum]? = some dev ∧
        dev.desc.bDeviceClass ≠ LIBUSB_CLASS_HID ∧
        cfg ∈ dev.configs ∧
        cfg.interfaces[n]? = some ifc ∧
        alt ∈ ifc.altsettings ∧
        alt.bInterfaceClass ≠ LIBUSB_CLASS_HID ∧
        (∃ e ∈ alt.endpoints,
          (e.bmAttributes = LIBUSB_TRANSFER_TYPE_BULK ∨
            e.bmAttributes = LIBUSB_TRANSFER_TYPE_INTERRUPT) ∧
          e.bEndpointAddress &&& LIBUSB_ENDPOINT_IN = LIBUSB_ENDPOINT_IN) ∧
        (∃ e ∈ alt.endpoints,
          (e.bmAttributes = LIBUSB_TRANSFER_TYPE_BULK ∨
            e.bmAttributes = LIBUSB_TRANSFER_TYPE_INTERRUPT) ∧
          e.bEndpointAddress &&& LIBUSB_ENDPOINT_IN ≠ LIBUSB_ENDPOINT_IN) ∧
        info = mkInfo 0 dev.desc devnum dev.port n alt
          (scanEndpoints alt.endpoints) := by
    rw [mem_getAllDevices]
    simp only [mem_deviceInfos, mem_ifaceInfos, mem_altInfos,
      List.any_eq_true, endpointUsable, endpointIsIn, Bool.and_eq_true,
      Bool.or_eq_true, beq_iff_eq, Bool.not_eq_eq_eq_not, Bool.not_true,
      beq_eq_false_iff_ne]
    constructor
    · rintro ⟨devnum, dev, hdev, -, hcls, cfg, hcfg, n, ifc, hifc, alt, halt,
        hacls, hin, hout, hinfo⟩
      exact ⟨devnum, dev, cfg, n, ifc, alt, hdev, hcls, hcfg, hifc, halt,
        hacls, hin, hout, hinfo⟩
    · rintro ⟨devnum, dev, cfg, n, ifc, alt, hdev, hcls, hcfg, hifc, halt,
        hacls, hin, hout, hinfo⟩
      exact ⟨devnum, dev, hdev, by simp, hcls, cfg, hcfg, n, ifc, hifc,
        alt, halt, hacls, hin, hout, hinfo⟩
  refine ⟨key, fun hmem => ?_⟩
  rcases key.mp hmem with ⟨devnum, dev, cfg, n, ifc, alt, -, -, -, -, -, -,
    hin, hout, hinfo⟩
  have hr : (scanEndpoints alt.endpoints).reader.isSome = true := by
    rw [scanEndpoints_reader_isSome, List.any_eq_true]
    rcases hin with ⟨e, he, hkind, hdir⟩
    refine ⟨e, he, ?_⟩
    simp [endpointUsable, endpointIsIn, hdir]
    exact hkind
  have hw : (scanEndpoints alt.endpoints).writer.isSome = true := by
    rw [scanEndpoints_writer_isSome, List.any_eq_true]
    rcases hout with ⟨e, he, hkind, hdir⟩
    refine ⟨e, he, ?_⟩
    simp [endpointUsable, endpointIsIn, hdir]
    exact hkind
  subst hinfo
  exact ⟨scanEndpoints_readerTT_usable alt.endpoints hr,
    scanEndpoints_writerTT_usable alt.endpoints hw⟩

/-- C3 witness: the amended characterization applied at a concrete tree
with an interrupt IN and bulk OUT endpoint. -/
theorem C3_matching_amended_witness :
    ((mkInfo 0 ⟨0x1234, 0x5678, 0, 0, 0⟩ 0 7 0
        ⟨0, 0xff, 0, 0, [⟨0x81, 0x03⟩, ⟨0x01, 0x02⟩]⟩
        (scanEndpoints [⟨0x81, 0x03⟩, ⟨0x01, 0x02⟩])).readerTransferType =
          LIBUSB_TRANSFER_TYPE_BULK ∨
      (mkInfo 0 ⟨0x1234, 0x5678, 0, 0, 0⟩ 0 7 0
        ⟨0, 0xff, 0, 0, [⟨0x81, 0x03⟩, ⟨0x01, 0x02⟩]⟩
        (scanEndpoints [⟨0x81, 0x03⟩, ⟨0x01, 0x02⟩])).readerTransferType =
          LIBUSB_TRANSFER_TYPE_INTERRUPT) ∧
    ((mkInfo 0 ⟨0x1234, 0x5678, 0, 0, 0⟩ 0 7 0
        ⟨0, 0xff, 0, 0, [⟨0x81, 0x03⟩, ⟨0x01, 0x02⟩]⟩
        (scanEndpoints [⟨0x81, 0x03⟩, ⟨0x01, 0x02⟩])).writerTransferType =
          LIBUSB_TRANSFER_TYPE_BULK ∨
      (mkInfo 0 ⟨0x1234, 0x5678, 0, 0, 0⟩ 0 7 0
        ⟨0, 0xff, 0, 0, [⟨0x81, 0x03⟩, ⟨0x01, 0x02⟩]⟩
        (scanEndpoints [⟨0x81, 0x03⟩, ⟨0x01, 0x02⟩])).writerTransferType =
          LIBUSB_TRANSFER_TYPE_INTERRUPT) :=
  (C3_matching_amended
    [⟨⟨0x1234, 0x5678, 0, 0, 0⟩,
      [⟨[⟨[⟨0, 0xff, 0, 0, [⟨0x81, 0x03⟩, ⟨0x01, 0x02⟩]⟩]⟩]⟩], 7⟩]
    (mkInfo 0 ⟨0x1234, 0x5678, 0, 0, 0⟩ 0 7 0
      ⟨0, 0xff, 0, 0, [⟨0x81, 0x03⟩, ⟨0x01, 0x02⟩]⟩
      (scanEndpoints [⟨0x81, 0x03⟩, ⟨0x01, 0x02⟩]))).2 (by decide)

/-- C4 counterexample.  The endpoint ⟨address 0x81, attributes 0x13⟩ has
transfer-kind bits 0-1 equal to the interrupt constant (per
`transferTypeMask`), so the claim says it is accepted as a candidate
regardless of the iso-sync/usage bits; the code rejects it — the scan state
is unchanged — and a whole alt-setting made of such endpoints emits
nothing. -/
theorem C4_counterexample :
    0x13 &&& transferTypeMask = LIBUSB_TRANSFER_TYPE_INTERRUPT ∧
    scanStep initScan ⟨0x81, 0x13⟩ = initScan ∧
    (getAllDevices 0 0 (Except.ok
        [⟨⟨0x1234, 0x5678, 0, 0, 0⟩,
          [⟨[⟨[⟨0, 0xff, 0, 0, [⟨0x81, 0x13⟩, ⟨0x01, 0x13⟩]⟩]⟩]⟩], 7⟩])).1 =
      [] := by
  refine ⟨by decide, by decide, rfl⟩

/-- C4 amended.  Direction is derived from bit 7 of the endpoint address
via `endpointDirectionMask`, as claimed; but the transfer-kind test
compares the entire attributes byte with the bulk/interrupt constants, so
an endpoint whose bits 0-1 denote bulk or interrupt is rejected whenever
any iso-sync (2-3) or usage-type (4-5) bit is set. -/
theorem C4_endpoint_classification_amended (s : ScanState) (e : EndpointDesc) :
    (e.bmAttributes &&& transferTypeMask = LIBUSB_TRANSFER_TYPE_BULK ∨
      e.bmAttributes &&& transferTypeMask = LIBUSB_TRANSFER_TYPE_INTERRUPT →
      e.bmAttributes ≠ LIBUSB_TRANSFER_TYPE_BULK →
      e.bmAttributes ≠ LIBUSB_TRANSFER_TYPE_INTERRUPT →
      scanStep s e = s) ∧
    (e.bmAttributes = LIBUSB_TRANSFER_TYPE_BULK ∨
      e.bmAttributes = LIBUSB_TRANSFER_TYPE_INTERRUPT →
      (e.bEndpointAddress &&& endpointDirectionMask = endpointDirectionMask →
        scanStep s e =
          { s with
              reader := some e.bEndpointAddress
              readerTransferType := e.bmAttributes }) ∧
      (e.bEndpointAddress &&& endpointDirectionMask ≠ endpointDirectionMask →
        scanStep s e =
          { s with
              writer := some e.bEndpointAddress
              writerTransferType := e.bmAttributes })) := by
  constructor
  · intro hmask h2 h3
    simp [scanStep, h2, h3]
  · intro hkind
    have husable : (e.bmAttributes != LIBUSB_TRANSFER_TYPE_INTERRUPT &&
        e.bmAttributes != LIBUSB_TRANSFER_TYPE_BULK) = false := by
      rcases hkind with h | h <;> simp [h, LIBUSB_TRANSFER_TYPE_BULK,
        LIBUSB_TRANSFER_TYPE_INTERRUPT]
    constructor
    · intro hdir
      simp [scanStep, husable, endpointDirectionMask, LIBUSB_ENDPOINT_IN] at *
      simp [hdir]
    · intro hdir
      simp [scanStep, husable, endpointDirectionMask, LIBUSB_ENDPOINT_IN] at *
      simp [hdir]

/-- C4 witness: the amended classification applied at a bulk IN endpoint
and at a rejected masked-interrupt endpoint. -/
theorem C4_endpoint_classification_amended_witness :
    scanStep initScan ⟨0x81, 0x02⟩ =
      { initScan with
          reader := some 0x81
          readerTransferType := LIBUSB_TRANSFER_TYPE_BULK } ∧
    scanStep initScan ⟨0x01, 0x13⟩ = initScan :=
  ⟨by
    have h := ((C4_endpoint_classification_amended initScan
        ⟨0x81, 0x02⟩).2 (Or.inl (by decide))).1 (by decide)
    simpa [LIBUSB_TRANSFER_TYPE_BULK] using h,
   (C4_endpoint_classification_amended initScan ⟨0x01, 0x13⟩).1
      (Or.inr (by decide)) (by decide) (by decide)⟩

/-- C6.  `open` re-runs discovery filtered by the requested record's vendor
and product IDs and fails with the not-found error exactly when no
candidate of that re-scan agrees with the record on both the physical port
number and the interface index — no other field participates in the
test. -/
theorem C6_open_matches_port_and_interface (info : DeviceInfo)
    (devs : List Device) (nat : OpenNative) :
    (openDevice info (Except.ok devs) nat).1 = Except.error OpenError.notFound ↔
      ∀ m ∈ (getAllDevices info.VendorID info.ProductID (Except.ok devs)).1,
        ¬(m.libusbPort = info.libusbPort ∧ m.Interface = info.Interface) := by
  have h21 : (getAllDevices info.VendorID info.ProductID
      (Except.ok devs)).2.1 = none := rfl
  have hsel := selectLoop_none (matchesPortIface info)
    (getAllDevices info.VendorID info.ProductID (Except.ok devs)).1
  have key : (openDevice info (Except.ok devs) nat).1 =
      Except.error OpenError.notFound ↔
      (getAllDevices info.VendorID info.ProductID (Except.ok devs)).1.find?
        (matchesPortIface info) = none := by
    rcases hfind : (getAllDevices info.VendorID info.ProductID
        (Except.ok devs)).1.find? (matchesPortIface info) with _ | m
    · rw [hfind] at hsel
      simp [openDevice, h21, hsel]
    · rw [hfind] at hsel
      rcases nat with ⟨ho, ha, hd, hc⟩
      rcases ho with _ | e <;> rcases hc with _ | e2 <;>
        simp [openDevice, h21, hsel, hfind]
  rw [key, List.find?_eq_none]
  constructor
  · intro h m hm hpm
    have := h m hm
    simp only [matchesPortIface, Bool.and_eq_true, beq_iff_eq] at this
    exact this ⟨hpm.1, hpm.2⟩
  · intro h m hm
    have := h m hm
    simp only [matchesPortIface, Bool.and_eq_true, beq_iff_eq]
    intro hpm
    exact this ⟨hpm.1, hpm.2⟩

/-- C6 witness: with an empty native device list, `open` fails with the
not-found error (the characterization applied at a concrete input). -/
theorem C6_open_matches_port_and_interface_witness :
    (openDevice (mkInfo 0 ⟨0x1234, 0x5678, 0, 0, 0⟩ 0 7 0
        ⟨0, 0xff, 0, 0, []⟩ initScan) (Except.ok [])
      ⟨none, none, none, none⟩).1 = Except.error OpenError.notFound :=
  (C6_open_matches_port_and_interface
    (mkInfo 0 ⟨0x1234, 0x5678, 0, 0, 0⟩ 0 7 0 ⟨0, 0xff, 0, 0, []⟩ initScan)
    [] ⟨none, none, none, none⟩).mpr (by decide)

/-- C10.  During `open`'s re-scan the loop keeps the first candidate whose
port number and interface index both match the requested record, and every
other candidate — before or after the selected one, matching or not — is
handed to `libusb_unref_device` during the scan; the released list equals
the match list with the first matching occurrence removed. -/
theorem C10_first_match_selected (info : DeviceInfo) (devs : List Device)
    (nat : OpenNative) :
    (selectLoop (matchesPortIface info) none
        (getAllDevices info.VendorID info.ProductID (Except.ok devs)).1).1 =
      (getAllDevices info.VendorID info.ProductID (Except.ok devs)).1.find?
        (matchesPortIface info) ∧
    (selectLoop (matchesPortIface info) none
        (getAllDevices info.VendorID info.ProductID (Except.ok devs)).1).2 =
      (getAllDevices info.VendorID info.ProductID (Except.ok devs)).1.eraseP
        (matchesPortIface info) ∧
    (openDevice info (Except.ok devs) nat).2 =
      (getAllDevices info.VendorID info.ProductID (Except.ok devs)).1.eraseP
        (matchesPortIface info) := by
  have h21 : (getAllDevices info.VendorID info.ProductID
      (Except.ok devs)).2.1 = none := rfl
  have hsel := selectLoop_none (matchesPortIface info)
    (getAllDevices info.VendorID info.ProductID (Except.ok devs)).1
  refine ⟨by rw [hsel], by rw [hsel], ?_⟩
  rcases hfind : (getAllDevices info.VendorID info.ProductID
      (Except.ok devs)).1.find? (matchesPortIface info) with _ | m <;>
    rw [hfind] at hsel <;>
    rcases nat with ⟨ho, ha, hd, hc⟩ <;>
    rcases ho with _ | e <;> rcases hc with _ | e2 <;>
    simp [openDevice, h21, hsel, hfind]

/-- C7 counterexample.  `DetachKernelDriver` does return any native detach
failure other than not-supported/not-found, but `open` discards that
result (`libusb.go:212` is a bare statement), so a detach failure does not
abort the open: with a native detach outcome of an I/O error and every
other native call succeeding, `open` still succeeds — refuting "any other
detach failure aborts the open and propagates the error to the caller". -/
theorem C7_counterexample :
    DetachKernelDriver (some UsbError.io) = some UsbError.io ∧
    isOkResult (openDevice
      (mkInfo 0x1234 ⟨0x1234, 0x5678, 0, 0, 0⟩ 0 7 0
        ⟨0, 0xff, 0, 0, [⟨0x81, 0x02⟩, ⟨0x01, 0x02⟩]⟩
        (scanEndpoints [⟨0x81, 0x02⟩, ⟨0x01, 0x02⟩]))
      (Except.ok [⟨⟨0x1234, 0x5678, 0, 0, 0⟩,
        [⟨[⟨[⟨0, 0xff, 0, 0, [⟨0x81, 0x02⟩, ⟨0x01, 0x02⟩]⟩]⟩]⟩], 7⟩])
      ⟨none, none, some UsbError.io, none⟩).1 = true := by
  refine ⟨rfl, ?_⟩
  decide

/-- C7 amended.  The `DetachKernelDriver` method treats the native
outcomes not-supported and not-found as success and returns any other
native failure to its caller; `open`, however, discards that result, so
its outcome is independent of the native detach outcome and no detach
failure aborts the open. -/
theorem C7_detach_amended :
    (∀ e : UsbError, e ≠ UsbError.notSupported → e ≠ UsbError.notFound →
      DetachKernelDriver (some e) = some e) ∧
    DetachKernelDriver (some UsbError.notSupported) = none ∧
    DetachKernelDriver (some UsbError.notFound) = none ∧
    DetachKernelDriver none = none ∧
    (∀ (info : DeviceInfo) (listing : Except Int (List Device))
        (nat : OpenNative) (d : Option UsbError),
      openDevice info listing { nat with detachErr := d } =
        openDevice info listing nat) := by
  refine ⟨?_, rfl, rfl, rfl, ?_⟩
  · intro e h1 h2
    simp [DetachKernelDriver, h1, h2]
  · intro info listing nat d
    rcases nat with ⟨ho, ha, hd, hc⟩
    rfl

/-- C7 witness: the amended behaviour applied to a concrete I/O failure. -/
theorem C7_detach_amended_witness :
    DetachKernelDriver (some UsbError.accessDenied) =
      some UsbError.accessDenied ∧
    DetachKernelDriver (some UsbError.notFound) = none :=
  ⟨C7_detach_amended.1 UsbError.accessDenied (by decide) (by decide),
   C7_detach_amended.2.2.1⟩

/-- C8.  Within one alt-setting at most one IN and one OUT candidate exist
(single `reader`/`writer` slots) and the last usable endpoint of each
direction wins: the fold's `reader` is the address of the last usable IN
endpoint scanned (first conjunct, via the reverse-find characterization),
and for an alt-setting with two qualifying IN bulk endpoints at addresses
`a` then `b` followed by an OUT bulk endpoint `w`, the emitted record's IN
endpoint is `b` (second conjunct). -/
theorem C8_last_candidate_wins :
    (∀ (s : ScanState) (es : List EndpointDesc),
      (es.foldl scanStep s).reader =
        (es.reverse.find? fun e => endpointUsable e && endpointIsIn e).elim
          s.reader (fun e => some e.bEndpointAddress)) ∧
    (∀ a b w altnum cls sub prot vendorID devnum port ifacenum : Nat,
      ∀ desc : DeviceDesc,
      a &&& LIBUSB_ENDPOINT_IN = LIBUSB_ENDPOINT_IN →
      b &&& LIBUSB_ENDPOINT_IN = LIBUSB_ENDPOINT_IN →
      w &&& LIBUSB_ENDPOINT_IN ≠ LIBUSB_ENDPOINT_IN →
      cls ≠ LIBUSB_CLASS_HID →
      (altInfos vendorID desc devnum port ifacenum
          ⟨altnum, cls, sub, prot,
            [⟨a, LIBUSB_TRANSFER_TYPE_BULK⟩, ⟨b, LIBUSB_TRANSFER_TYPE_BULK⟩,
             ⟨w, LIBUSB_TRANSFER_TYPE_BULK⟩]⟩).map
          (fun i => (i.libusbReader, i.libusbWriter)) = [(b, w)]) := by
  refine ⟨fun s es => foldl_scanStep_reader es s, ?_⟩
  intro a b w altnum cls sub prot vendorID devnum port ifacenum desc
    ha hb hw hcls
  simp [altInfos, scanEndpoints, scanStep, mkInfo, ha, hb, hw, hcls,
    LIBUSB_TRANSFER_TYPE_BULK, LIBUSB_TRANSFER_TYPE_INTERRUPT]

/-- C8 witness: two IN bulk endpoints at 0x81 then 0x83 and an OUT bulk
endpoint at 0x01 — the emitted record's IN endpoint is 0x83. -/
theorem C8_last_candidate_wins_witness :
    (altInfos 0 ⟨1, 2, 0, 0, 0⟩ 0 7 0
        ⟨0, 0xff, 0, 0,
          [⟨0x81, LIBUSB_TRANSFER_TYPE_BULK⟩,
           ⟨0x83, LIBUSB_TRANSFER_TYPE_BULK⟩,
           ⟨0x01, LIBUSB_TRANSFER_TYPE_BULK⟩]⟩).map
        (fun i => (i.libusbReader, i.libusbWriter)) = [(0x83, 0x01)] :=
  C8_last_candidate_wins.2 0x81 0x83 0x01 0 0xff 0 0 0 0 7 0 ⟨1, 2, 0, 0, 0⟩
    (by decide) (by decide) (by decide) (by decide)

/-- C9 counterexample.  A zero-length buffer is not forwarded to the
native layer: taking `&b[0]` raises a Go runtime index-out-of-range panic
first, so the claim that the call "completes in this layer without failure
or abnormal termination before reaching the native layer" fails for the
empty buffer on both `Read` and `Write`. -/
theorem C9_counterexample :
    Read ⟨⟨"", 0, 0, 0, 0, 0, 0, 0, 0, 0x81, 0x01,
        LIBUSB_TRANSFER_TYPE_INTERRUPT, LIBUSB_TRANSFER_TYPE_INTERRUPT,
        0, 0xff, 0, 0⟩, true, 0, 0⟩ [] = TransferAction.panicOnEmpty ∧
    Write ⟨⟨"", 0, 0, 0, 0, 0, 0, 0, 0, 0x81, 0x01,
        LIBUSB_TRANSFER_TYPE_BULK, LIBUSB_TRANSFER_TYPE_BULK,
        0, 0xff, 0, 0⟩, true, 0, 0⟩ [] = TransferAction.panicOnEmpty := by
  exact ⟨rfl, rfl⟩

/-- C9 amended.  `Read` and `Write` perform no validation of the buffer:
a non-empty buffer is forwarded as-is to the native transfer matching the
resolved transfer kind, but a zero-length buffer aborts the call with an
index-out-of-range panic (at `&b[0]`) before any native call is made. -/
theorem C9_transfer_forwarding_amended (dev : libusbDevice) (b : List Nat) :
    (b ≠ [] → dev.info.readerTransferType = LIBUSB_TRANSFER_TYPE_INTERRUPT →
      Read dev b = TransferAction.interruptTransfer dev.info.libusbReader b
        dev.readTimeout) ∧
    (b ≠ [] → dev.info.readerTransferType = LIBUSB_TRANSFER_TYPE_BULK →
      Read dev b = TransferAction.bulkTransfer dev.info.libusbReader b
        dev.readTimeout) ∧
    (b ≠ [] → dev.info.writerTransferType = LIBUSB_TRANSFER_TYPE_INTERRUPT →
      Write dev b = TransferAction.interruptTransfer dev.info.libusbWriter b
        dev.writeTimeout) ∧
    (b ≠ [] → dev.info.writerTransferType = LIBUSB_TRANSFER_TYPE_BULK →
      Write dev b = TransferAction.bulkTransfer dev.info.libusbWriter b
        dev.writeTimeout) ∧
    (dev.info.readerTransferType = LIBUSB_TRANSFER_TYPE_INTERRUPT ∨
      dev.info.readerTransferType = LIBUSB_TRANSFER_TYPE_BULK →
      Read dev [] = TransferAction.panicOnEmpty) ∧
    (dev.info.writerTransferType = LIBUSB_TRANSFER_TYPE_INTERRUPT ∨
      dev.info.writerTransferType = LIBUSB_TRANSFER_TYPE_BULK →
      Write dev [] = TransferAction.panicOnEmpty) := by
  rcases b with _ | ⟨x, xs⟩
  · refine ⟨by simp, by simp, by simp, by simp, ?_, ?_⟩
    · rintro (h | h) <;>
        simp [Read, readInterrupt, readBulk, h, LIBUSB_TRANSFER_TYPE_BULK,
          LIBUSB_TRANSFER_TYPE_INTERRUPT]
    · rintro (h | h) <;>
        simp [Write, writeInterrupt, writeBulk, h, LIBUSB_TRANSFER_TYPE_BULK,
          LIBUSB_TRANSFER_TYPE_INTERRUPT]
  · refine ⟨?_, ?_, ?_, ?_, ?_, ?_⟩
    · intro h hk
      simp [Read, readInterrupt, hk]
    · intro h hk
      simp [Read, readInterrupt, readBulk, hk, LIBUSB_TRANSFER_TYPE_BULK,
        LIBUSB_TRANSFER_TYPE_INTERRUPT]
    · intro h hk
      simp [Write, writeInterrupt, hk]
    · intro h hk
      simp [Write, writeInterrupt, writeBulk, hk, LIBUSB_TRANSFER_TYPE_BULK,
        LIBUSB_TRANSFER_TYPE_INTERRUPT]
    · rintro (h | h) <;>
        simp [Read, readInterrupt, readBulk, h, LIBUSB_TRANSFER_TYPE_BULK,
          LIBUSB_TRANSFER_TYPE_INTERRUPT]
    · rintro (h | h) <;>
        simp [Write, writeInterrupt, writeBulk, h, LIBUSB_TRANSFER_TYPE_BULK,
          LIBUSB_TRANSFER_TYPE_INTERRUPT]

/-- C9 witness: the forwarding behaviour and the empty-buffer panic at a
concrete handle and buffer. -/
theorem C9_transfer_forwarding_amended_witness :
    Read ⟨⟨"", 0, 0, 0, 0, 0, 0, 0, 0, 0x81, 0x01,
        LIBUSB_TRANSFER_TYPE_INTERRUPT, LIBUSB_TRANSFER_TYPE_INTERRUPT,
        0, 0xff, 0, 0⟩, true, 0, 0⟩ [42] =
      TransferAction.interruptTransfer 0x81 [42] 0 ∧
    Read ⟨⟨"", 0, 0, 0, 0, 0, 0, 0, 0, 0x81, 0x01,
        LIBUSB_TRANSFER_TYPE_INTERRUPT, LIBUSB_TRANSFER_TYPE_INTERRUPT,
        0, 0xff, 0, 0⟩, true, 0, 0⟩ [] = TransferAction.panicOnEmpty :=
  ⟨(C9_transfer_forwarding_amended
      ⟨⟨"", 0, 0, 0, 0, 0, 0, 0, 0, 0x81, 0x01,
        LIBUSB_TRANSFER_TYPE_INTERRUPT, LIBUSB_TRANSFER_TYPE_INTERRUPT,
        0, 0xff, 0, 0⟩, true, 0, 0⟩ [42]).1 (by decide) rfl,
   (C9_transfer_forwarding_amended
      ⟨⟨"", 0, 0, 0, 0, 0, 0, 0, 0, 0x81, 0x01,
        LIBUSB_TRANSFER_TYPE_INTERRUPT, LIBUSB_TRANSFER_TYPE_INTERRUPT,
        0, 0xff, 0, 0⟩, true, 0, 0⟩ []).2.2.2.2.1 (Or.inl rfl)⟩

end Zerousb
